import Mathlib

set_option maxRecDepth 100000

/-!
# Verification of the AI-Chatbot search-refinement core

Shallow embedding of the iterative relevance-driven search-refinement loop of
the heritage-archive chatbot, translated from the repository sources:

* `src/AGENT_REDESIGN_PLAN.md` — contains the authoritative Python code of
  `SearchRefinementState`, `SearchRefinementMiddleware` (`wrap_tool_call`,
  `_evaluate_results`) and the `SearchResponse` model, plus the exact canned
  message strings;
* `src/frontend/src/components/ChatPanelV2.tsx` — the frontend `handleSend`
  handler.

Python floats (similarity scores in `[0,1]`) are modelled as rationals `ℚ`;
the comparisons the code performs are exact, so nothing is lost. Dynamic
Python values are modelled by explicit sum types. The agent/endpoint layer
(`agent_v2.py`, `ai_search_v2.py`) is not part of the sources; where a claim
needs it, it is modelled from the spec and marked as such.
-/

namespace AIChatbot

/-- A single retrieved archive item, as produced by the `search_archives_db`
tool (a Python dict with at least these fields; `similarity ∈ [0,1]`). -/
structure ResultItem where
  id : String
  title : String
  tags : List String
  media_types : List String
  similarity : ℚ
deriving Repr, DecidableEq

/-- The intent categories of `AGENT_REDESIGN_PLAN.md`, Phase 1. -/
inductive Intent where
  | HERITAGE_SEARCH
  | UNCLEAR
  | UNRELATED
  | GREETING
deriving Repr, DecidableEq

/-- `SearchRefinementState` from `middleware.py` (quoted in the plan):
`search_attempt_count: int = 0`, `original_user_query: str | None = None`,
`previous_queries_tried: list[str] = []`, `best_results: list[dict] = []`. -/
structure SearchRefinementState where
  search_attempt_count : Nat
  original_user_query : Option String
  previous_queries_tried : List String
  best_results : List ResultItem
deriving Repr, DecidableEq

/-- The initial refinement state: every field at its declared default. -/
def initState : SearchRefinementState :=
  { search_attempt_count := 0
    original_user_query := none
    previous_queries_tried := []
    best_results := [] }

/-- Configuration of `SearchRefinementMiddleware.__init__`:
`max_attempts: int = 3`, `min_similarity_threshold: float = 0.4`. -/
structure SearchRefinementMiddleware where
  max_attempts : Nat
  min_similarity_threshold : ℚ
deriving Repr, DecidableEq

/-- The middleware instance built by `agent_v2.py`'s `create_agent` call:
`SearchRefinementMiddleware(max_attempts=3, min_similarity_threshold=0.4)`. -/
def defaultMiddleware : SearchRefinementMiddleware :=
  { max_attempts := 3, min_similarity_threshold := mkRat 2 5 }

/-- `SearchRefinementMiddleware._evaluate_results`: `False` on an empty list,
otherwise `any(archive.get("similarity", 0) >= self.min_similarity_threshold)`.
`true` stands for `GOOD_ENOUGH`, `false` for `NEEDS_REFINEMENT`. -/
def evaluate_results (m : SearchRefinementMiddleware)
    (archives : List ResultItem) : Bool :=
  if archives.isEmpty then false
  else archives.any fun archive =>
    decide (m.min_similarity_threshold ≤ archive.similarity)

/-- The value a tool handler returns. `search_archives_db` returns a tuple
`(formatted_string, archives_list)`; `other` covers the code's
`isinstance(result, tuple)` fallback branch and results of unrelated tools. -/
inductive ToolResultValue where
  | tuple (formatted : String) (archives : List ResultItem)
  | other
deriving Repr, DecidableEq

/-- The tuple-unpacking in `wrap_tool_call`: `if isinstance(result, tuple):
formatted_string, archives = result; else: archives = []`. -/
def parseArchives : ToolResultValue → List ResultItem
  | .tuple _ archives => archives
  | .other => []

/-- What `wrap_tool_call` hands back to the agent framework: either the tool
result passed through unchanged (`return result` / `return handler(request)`),
or the refinement-request `ToolMessage`. The `ToolMessage` content is the
f-string built from the result count, the queries tried so far and the stored
original intent; it is kept structured here. -/
inductive WrapOutput where
  | passthrough (r : ToolResultValue)
  | refineMessage (numResults : Nat) (previousQueries : List String)
      (originalIntent : Option String)
deriving Repr, DecidableEq

/-- `SearchRefinementMiddleware.wrap_tool_call` restricted to the
`search_archives_db` branch. `handlerResult` is what `result = handler(request)`
produces: `Except.error e` models the handler raising (timeout / transport
failure), which propagates out of the middleware — note the state write of
`original_user_query` on attempt 0 happens before the handler runs. -/
def wrapSearchCall (m : SearchRefinementMiddleware) (query : String)
    (handlerResult : Except String ToolResultValue)
    (s : SearchRefinementState) :
    Except String WrapOutput × SearchRefinementState :=
  let attempt_count := s.search_attempt_count
  let original_query :=
    if attempt_count = 0 then some query else s.original_user_query
  let s0 := { s with original_user_query := original_query }
  match handlerResult with
  | .error e => (.error e, s0)
  | .ok result =>
      let previous_queries := s0.previous_queries_tried ++ [query]
      let archives := parseArchives result
      let results_good_enough := evaluate_results m archives
      let s1 := { s0 with
        search_attempt_count := attempt_count + 1
        previous_queries_tried := previous_queries }
      if results_good_enough || decide (m.max_attempts ≤ attempt_count + 1) then
        (.ok (.passthrough result), s1)
      else
        (.ok (.refineMessage archives.length previous_queries original_query), s1)

/-- `SearchRefinementMiddleware.wrap_tool_call` in full: any tool whose name is
not `"search_archives_db"` is handed straight to the original handler
(`return handler(request)`) and the refinement state is untouched. -/
def wrap_tool_call (m : SearchRefinementMiddleware) (toolName : String)
    (query : String) (handlerResult : Except String ToolResultValue)
    (s : SearchRefinementState) :
    Except String WrapOutput × SearchRefinementState :=
  if toolName = "search_archives_db" then
    wrapSearchCall m query handlerResult s
  else
    (handlerResult.map WrapOutput.passthrough, s)

/-- Terminal shape of one refinement-loop run. -/
inductive LoopResult where
  | finished (r : ToolResultValue)
  | failed (e : String)
  | outOfFuel
deriving Repr, DecidableEq

/-- The closed refinement loop: the agent issues a search, the middleware
intercepts it via `wrap_tool_call`, and the agent retries (with the query it
generates for the next attempt) exactly when it receives the refinement
`ToolMessage`. `queries n` is the query the agent sends on the (0-based) n-th
attempt, `oracle n` what the search tool's handler returns for it. Returns the
terminal result, the final middleware state, and the number of handler
invocations (searches actually executed). -/
def runLoop (m : SearchRefinementMiddleware) (queries : Nat → String)
    (oracle : Nat → Except String ToolResultValue) :
    Nat → SearchRefinementState →
    LoopResult × SearchRefinementState × Nat
  | 0, s => (.outOfFuel, s, 0)
  | fuel + 1, s =>
      let step := wrap_tool_call m "search_archives_db"
        (queries s.search_attempt_count) (oracle s.search_attempt_count) s
      match step.1 with
      | .error e => (.failed e, step.2, 1)
      | .ok (.passthrough r) => (.finished r, step.2, 1)
      | .ok (.refineMessage _ _ _) =>
          let next := runLoop m queries oracle fuel step.2
          (next.1, next.2.1, next.2.2 + 1)

/-- Canned response for `UNCLEAR`, exact string from the plan
("Agent Response by Category"). -/
def unclearMessage : String :=
  "Could you please provide more details about what heritage materials you're looking for? For example, you could specify a type (batik, crafts, architecture), location, or time period."

/-- Canned response for `UNRELATED`, exact string from the plan. -/
def unrelatedMessage : String :=
  "I can only help you search for heritage archive materials such as traditional crafts, cultural artifacts, historical documents, and cultural media. How can I assist you with heritage materials today?"

/-- Canned response for `GREETING`, exact string from the plan. -/
def greetingMessage : String :=
  "Hello! I'm here to help you search our heritage archive. What cultural materials or historical items would you like to explore?"

/-- The exhausted-retries message, exact string from the plan ("Retry Limits")
and spec §6. -/
def exhaustedMessage : String :=
  "I couldn't find relevant heritage materials matching your query. Try describing what you're looking for in different words, or browse our collection for inspiration."

/-- The per-intent canned string; `none` for `HERITAGE_SEARCH`, which runs the
search pipeline instead of answering with a fixed string. -/
def cannedMessage : Intent → Option String
  | .HERITAGE_SEARCH => none
  | .UNCLEAR => some unclearMessage
  | .UNRELATED => some unrelatedMessage
  | .GREETING => some greetingMessage

/-- The `SearchResponse` Pydantic model of `ai_search_v2.py` as quoted in the
plan: `response_type: str`, `archives: List[ArchiveResult] = []`,
`total: int = 0`, `query: str`, `message: str | None = None`. -/
structure SearchResponse where
  response_type : String
  archives : List ResultItem
  total : Nat
  query : String
  message : Option String
deriving Repr, DecidableEq

/-- What the caller ultimately receives: either a `SearchResponse`, or the
distinct transport-failure channel (HTTP 5xx equivalent) when an external call
raised; the spec's §7 keeps these two channels separate. -/
inductive CallerOutcome where
  | response (r : SearchResponse)
  | transportFailure (e : String)
deriving Repr, DecidableEq

/-- Modelled from the spec: the agent/endpoint layer (`agent_v2.py`,
`ai_search_v2.py`) that turns a session into the wire-level `SearchResponse`
is not among the sources (`src/` holds only the plan's middleware code and the
frontend). Following spec §4.4 and §6 and the plan's response patterns A/B:
a non-search intent answers its canned string with no search; a heritage
search runs the middleware loop (`runLoop`, fuel = `max_attempts`); a
good-enough terminal result is returned as pattern A (`"results"`, archives
populated, `message = None`), while an exhausted terminal result — and the
out-of-fuel case — collapses to pattern B with the exhaustion message; a
raised transport error propagates on the distinct failure channel. The second
component counts the search invocations executed. -/
def handleTurn (m : SearchRefinementMiddleware) (intent : Intent)
    (utterance : String) (queries : Nat → String)
    (oracle : Nat → Except String ToolResultValue) : CallerOutcome × Nat :=
  match intent with
  | .UNCLEAR =>
      (.response ⟨"message", [], 0, utterance, some unclearMessage⟩, 0)
  | .UNRELATED =>
      (.response ⟨"message", [], 0, utterance, some unrelatedMessage⟩, 0)
  | .GREETING =>
      (.response ⟨"message", [], 0, utterance, some greetingMessage⟩, 0)
  | .HERITAGE_SEARCH =>
      match runLoop m queries oracle m.max_attempts initState with
      | (.finished r, _, n) =>
          let archives := parseArchives r
          if evaluate_results m archives then
            (.response ⟨"results", archives, archives.length, utterance, none⟩, n)
          else
            (.response ⟨"message", [], 0, utterance, some exhaustedMessage⟩, n)
      | (.failed e, _, n) => (.transportFailure e, n)
      | (.outOfFuel, _, n) =>
          (.response ⟨"message", [], 0, utterance, some exhaustedMessage⟩, n)

/-! ## Frontend: `handleSend` of `ChatPanelV2.tsx` -/

/-- A `ChatMessage` as built by `ChatPanelV2.tsx` (the fields the handler
sets; timestamps are abstract instants). -/
structure ChatMessageT where
  id : String
  role : String
  content : String
  timestamp : Nat
  files : List String
  archiveResults : Option (List ResultItem)
deriving Repr, DecidableEq

/-- The component state `handleSend` reads and writes: the `input`,
`selectedFiles`, `messages` and `isTyping` React states. -/
structure ChatState where
  input : String
  selectedFiles : List String
  messages : List ChatMessageT
  isTyping : Bool
deriving Repr, DecidableEq

/-- JavaScript `String.prototype.trim`: strip whitespace from both ends.
Defined structurally on the character list so it evaluates by `decide`. -/
def jsTrim (s : String) : String :=
  String.mk (((s.data.dropWhile Char.isWhitespace).reverse.dropWhile
    Char.isWhitespace).reverse)

/-- `handleSend` from `ChatPanelV2.tsx`, lines 95–184. `apiResult` is the
settled promise of `aiSearchArchives(queryText)` (`Except.error` = rejection,
caught by the `catch` block); `now` models `Date.now()`. Returns the final
component state and whether the search API was called at all. The guard is the
source's `if (!queryText && selectedFiles.length === 0) return;` (an empty
string is the only falsy value of a JS string here). `result.message || x`
is modelled by `Option.getD`; the backend never sends `message = some ""`, for
which JS `||` and `getD` would differ. -/
def handleSend (apiResult : Except String SearchResponse) (now : Nat)
    (s : ChatState) : ChatState × Bool :=
  let queryText := jsTrim s.input
  if queryText = "" ∧ s.selectedFiles = [] then (s, false)
  else
    let userMessage : ChatMessageT :=
      { id := toString now
        role := "user"
        content := if queryText = "" then "Uploaded files for analysis" else queryText
        timestamp := now
        files := s.selectedFiles
        archiveResults := none }
    let s1 : ChatState :=
      { input := ""
        selectedFiles := []
        messages := s.messages ++ [userMessage]
        isTyping := true }
    let aiMessage : ChatMessageT :=
      match apiResult with
      | .error err =>
          { id := toString (now + 1)
            role := "assistant"
            content := "Sorry, search failed: " ++ err ++ ". Please try again."
            timestamp := now
            files := []
            archiveResults := none }
      | .ok result =>
          if result.response_type = "message" then
            { id := toString (now + 1)
              role := "assistant"
              content := result.message.getD "I can help you search our heritage archive."
              timestamp := now
              files := []
              archiveResults := none }
          else
            { id := toString (now + 1)
              role := "assistant"
              content := result.message.getD ""
              timestamp := now
              files := []
              archiveResults :=
                if result.archives.isEmpty then none else some result.archives }
    ({ s1 with messages := s1.messages ++ [aiMessage], isTyping := false }, true)

/-! ## Helper lemmas about the refinement loop -/

/-- The successor state written by one successful interception. -/
def stepState (m : SearchRefinementMiddleware) (q : String)
    (s : SearchRefinementState) : SearchRefinementState :=
  { s with
    search_attempt_count := s.search_attempt_count + 1
    original_user_query :=
      if s.search_attempt_count = 0 then some q else s.original_user_query
    previous_queries_tried := s.previous_queries_tried ++ [q] }

theorem wrap_tool_call_search (m : SearchRefinementMiddleware) (q : String)
    (hres : Except String ToolResultValue) (s : SearchRefinementState) :
    wrap_tool_call m "search_archives_db" q hres s = wrapSearchCall m q hres s := by
  simp [wrap_tool_call]

theorem wrapSearchCall_error (m : SearchRefinementMiddleware) (q : String)
    (e : String) (s : SearchRefinementState) :
    wrapSearchCall m q (.error e) s =
      (.error e, { s with original_user_query :=
        if s.search_attempt_count = 0 then some q else s.original_user_query }) := rfl

theorem wrapSearchCall_ok_snd (m : SearchRefinementMiddleware) (q : String)
    (result : ToolResultValue) (s : SearchRefinementState) :
    (wrapSearchCall m q (.ok result) s).2 = stepState m q s := by
  dsimp only [wrapSearchCall, stepState]
  split <;> rfl

theorem wrapSearchCall_ok_fst_stop (m : SearchRefinementMiddleware) (q : String)
    (result : ToolResultValue) (s : SearchRefinementState)
    (h : (evaluate_results m (parseArchives result)
      || decide (m.max_attempts ≤ s.search_attempt_count + 1)) = true) :
    (wrapSearchCall m q (.ok result) s).1 = .ok (.passthrough result) := by
  dsimp only [wrapSearchCall]
  rw [if_pos h]

theorem wrapSearchCall_ok_fst_refine (m : SearchRefinementMiddleware) (q : String)
    (result : ToolResultValue) (s : SearchRefinementState)
    (h : (evaluate_results m (parseArchives result)
      || decide (m.max_attempts ≤ s.search_attempt_count + 1)) = false) :
    (wrapSearchCall m q (.ok result) s).1 =
      .ok (.refineMessage (parseArchives result).length
        (s.previous_queries_tried ++ [q])
        (if s.search_attempt_count = 0 then some q else s.original_user_query)) := by
  dsimp only [wrapSearchCall]
  rw [if_neg (by simp [h])]

theorem runLoop_count_le (m : SearchRefinementMiddleware)
    (queries : Nat → String) (oracle : Nat → Except String ToolResultValue) :
    ∀ (fuel : Nat) (s : SearchRefinementState),
      s.search_attempt_count < m.max_attempts →
      (runLoop m queries oracle fuel s).2.1.search_attempt_count ≤ m.max_attempts ∧
      (runLoop m queries oracle fuel s).2.2 ≤ m.max_attempts - s.search_attempt_count := by
  intro fuel
  induction fuel with
  | zero =>
      intro s hs
      exact ⟨Nat.le_of_lt hs, Nat.zero_le _⟩
  | succ fuel ih =>
      intro s hs
      simp only [runLoop, wrap_tool_call_search]
      cases horacle : oracle s.search_attempt_count with
      | error e =>
          simp only [wrapSearchCall_error]
          exact ⟨Nat.le_of_lt hs, by omega⟩
      | ok result =>
          cases hgood : (evaluate_results m (parseArchives result)
              || decide (m.max_attempts ≤ s.search_attempt_count + 1)) with
          | true =>
              simp only [wrapSearchCall_ok_fst_stop m _ result s hgood,
                wrapSearchCall_ok_snd, stepState]
              exact ⟨by simpa using hs, by omega⟩
          | false =>
              have hlt' : s.search_attempt_count + 1 < m.max_attempts := by
                rcases Bool.or_eq_false_iff.mp hgood with ⟨-, h2⟩
                have := of_decide_eq_false h2
                omega
              have hrec := ih (stepState m (queries s.search_attempt_count) s)
                (by simpa [stepState] using hlt')
              simp only [wrapSearchCall_ok_fst_refine m _ result s hgood,
                wrapSearchCall_ok_snd]
              simp only [stepState] at hrec ⊢
              exact ⟨hrec.1, by omega⟩

theorem runLoop_trace (m : SearchRefinementMiddleware)
    (queries : Nat → String) (oracle : Nat → Except String ToolResultValue) :
    ∀ (fuel : Nat) (s : SearchRefinementState),
      s.previous_queries_tried = (List.range s.search_attempt_count).map queries →
      (runLoop m queries oracle fuel s).2.1.previous_queries_tried =
        (List.range (runLoop m queries oracle fuel s).2.1.search_attempt_count).map
          queries := by
  intro fuel
  induction fuel with
  | zero => intro s hs; exact hs
  | succ fuel ih =>
      intro s hs
      have hstep : (stepState m (queries s.search_attempt_count) s).previous_queries_tried =
          (List.range (stepState m (queries s.search_attempt_count) s).search_attempt_count).map queries := by
        simp only [stepState, hs, List.range_succ, List.map_append, List.map_cons,
          List.map_nil]
      simp only [runLoop, wrap_tool_call_search]
      cases horacle : oracle s.search_attempt_count with
      | error e => simpa using hs
      | ok result =>
          cases hgood : (evaluate_results m (parseArchives result)
              || decide (m.max_attempts ≤ s.search_attempt_count + 1)) with
          | true =>
              simp only [wrapSearchCall_ok_fst_stop m _ result s hgood,
                wrapSearchCall_ok_snd]
              exact hstep
          | false =>
              simp only [wrapSearchCall_ok_fst_refine m _ result s hgood,
                wrapSearchCall_ok_snd]
              exact ih _ hstep

theorem runLoop_exhausts (m : SearchRefinementMiddleware)
    (queries : Nat → String) (oracleP : Nat → ToolResultValue)
    (hbad : ∀ n, evaluate_results m (parseArchives (oracleP n)) = false) :
    ∀ (fuel : Nat) (s : SearchRefinementState),
      s.search_attempt_count < m.max_attempts →
      m.max_attempts ≤ s.search_attempt_count + fuel →
      ∃ s', runLoop m queries (fun n => Except.ok (oracleP n)) fuel s =
        (LoopResult.finished (oracleP (m.max_attempts - 1)), s',
          m.max_attempts - s.search_attempt_count) := by
  intro fuel
  induction fuel with
  | zero => intro s hlt hle; omega
  | succ fuel ih =>
      intro s hlt hle
      simp only [runLoop, wrap_tool_call_search]
      by_cases hstop : m.max_attempts ≤ s.search_attempt_count + 1
      · have hcond : (evaluate_results m (parseArchives (oracleP s.search_attempt_count))
            || decide (m.max_attempts ≤ s.search_attempt_count + 1)) = true := by
          simp [hbad, hstop]
        refine ⟨stepState m (queries s.search_attempt_count) s, ?_⟩
        simp only [wrapSearchCall_ok_fst_stop m _ _ s hcond, wrapSearchCall_ok_snd]
        have h1 : s.search_attempt_count = m.max_attempts - 1 := by omega
        rw [h1]
        have h2 : m.max_attempts - (m.max_attempts - 1) = 1 := by omega
        rw [h2]
      · have hcond : (evaluate_results m (parseArchives (oracleP s.search_attempt_count))
            || decide (m.max_attempts ≤ s.search_attempt_count + 1)) = false := by
          simp [hbad, hstop]
        obtain ⟨s', hs'⟩ := ih (stepState m (queries s.search_attempt_count) s)
          (by simp only [stepState]; omega) (by simp only [stepState]; omega)
        refine ⟨s', ?_⟩
        simp only [wrapSearchCall_ok_fst_refine m _ _ s hcond, wrapSearchCall_ok_snd, hs']
        have h3 : m.max_attempts - (stepState m (queries s.search_attempt_count) s).search_attempt_count + 1 =
            m.max_attempts - s.search_attempt_count := by
          simp only [stepState]; omega
        rw [h3]

/-- If the loop reaches an attempt whose handler raises — every earlier
attempt from the current state returned a result evaluating
`NEEDS_REFINEMENT` — the exception propagates immediately: the run fails with
that error after exactly the invocations up to and including the raising
attempt, with no further attempt for the failure. -/
theorem runLoop_fails (m : SearchRefinementMiddleware)
    (queries : Nat → String) (oracle : Nat → Except String ToolResultValue)
    (e : String) (k : Nat) (hfail : oracle k = Except.error e)
    (hok : ∀ i, i < k → ∃ r, oracle i = Except.ok r ∧
      evaluate_results m (parseArchives r) = false)
    (hk : k < m.max_attempts) :
    ∀ (fuel : Nat) (s : SearchRefinementState),
      s.search_attempt_count ≤ k → k < s.search_attempt_count + fuel →
      ∃ s', runLoop m queries oracle fuel s =
        (LoopResult.failed e, s', k - s.search_attempt_count + 1) := by
  intro fuel
  induction fuel with
  | zero => intro s hle hlt; omega
  | succ fuel ih =>
      intro s hle hlt
      simp only [runLoop, wrap_tool_call_search]
      rcases Nat.eq_or_lt_of_le hle with hck | hck
      · refine ⟨{ s with original_user_query :=
          if s.search_attempt_count = 0 then some (queries s.search_attempt_count)
          else s.original_user_query }, ?_⟩
        have hfail' : oracle s.search_attempt_count = Except.error e := by
          rw [hck]; exact hfail
        rw [hfail', wrapSearchCall_error]
        have h1 : k - s.search_attempt_count + 1 = 1 := by omega
        rw [h1]
      · obtain ⟨r, hor, hbadr⟩ := hok s.search_attempt_count hck
        have hcond : (evaluate_results m (parseArchives r)
            || decide (m.max_attempts ≤ s.search_attempt_count + 1)) = false := by
          have : ¬ m.max_attempts ≤ s.search_attempt_count + 1 := by omega
          simp [hbadr, this]
        obtain ⟨s', hs'⟩ := ih (stepState m (queries s.search_attempt_count) s)
          (by simp only [stepState]; omega) (by simp only [stepState]; omega)
        refine ⟨s', ?_⟩
        rw [hor]
        simp only [wrapSearchCall_ok_fst_refine m _ _ s hcond,
          wrapSearchCall_ok_snd, hs']
        have h2 : k - (stepState m (queries s.search_attempt_count) s).search_attempt_count + 1 + 1 =
            k - s.search_attempt_count + 1 := by
          simp only [stepState]; omega
        rw [h2]

/-! ## Claim theorems -/

/-- C1: for every session, the refinement controller executes at most
`max_attempts` search invocations, and the middleware's `search_attempt_count`
never exceeds `max_attempts` (stated for every fuel value, which covers the
state after every prefix of the loop); in particular with the default
`max_attempts = 3` a 4th search is never issued. -/
theorem attempt_count_bounded (m : SearchRefinementMiddleware)
    (queries : Nat → String) (oracle : Nat → Except String ToolResultValue)
    (fuel : Nat) (hmax : 1 ≤ m.max_attempts) :
    (runLoop m queries oracle fuel initState).2.1.search_attempt_count ≤
      m.max_attempts ∧
    (runLoop m queries oracle fuel initState).2.2 ≤ m.max_attempts := by
  have h := runLoop_count_le m queries oracle fuel initState
    (by simpa [initState] using hmax)
  exact ⟨h.1, le_trans h.2 (by simp [initState])⟩

/-- Witness for C1: a concrete session with the default middleware
(`max_attempts = 3`) and excess fuel. -/
theorem attempt_count_bounded_witness :
    (runLoop defaultMiddleware (fun _ => "batik")
      (fun _ => Except.ok ToolResultValue.other) 9 initState).2.1.search_attempt_count ≤
      defaultMiddleware.max_attempts ∧
    (runLoop defaultMiddleware (fun _ => "batik")
      (fun _ => Except.ok ToolResultValue.other) 9 initState).2.2 ≤
      defaultMiddleware.max_attempts :=
  attempt_count_bounded defaultMiddleware (fun _ => "batik")
    (fun _ => Except.ok ToolResultValue.other) 9 (by decide)

/-- C2: `_evaluate_results` answers `GOOD_ENOUGH` (`true`) exactly when the
result list is non-empty and some item's similarity reaches the evaluation
threshold (`min_similarity_threshold`, default `0.4`); in every other case it
answers `NEEDS_REFINEMENT` (`false`). -/
theorem evaluate_results_iff (m : SearchRefinementMiddleware)
    (archives : List ResultItem) :
    evaluate_results m archives = true ↔
      archives ≠ [] ∧
        ∃ a ∈ archives, m.min_similarity_threshold ≤ a.similarity := by
  cases archives with
  | nil => simp [evaluate_results]
  | cons a as =>
      simp [evaluate_results, List.any_eq_true]

/-- C3: when every attempt's results evaluate `NEEDS_REFINEMENT`, the turn
terminates exhausted after exactly `max_attempts` searches and the caller
receives the message-type response carrying exactly `exhaustedMessage` and an
empty archive list — no attempt's low-confidence items are surfaced. -/
theorem exhausted_emits_message (m : SearchRefinementMiddleware)
    (utterance : String) (queries : Nat → String)
    (oracleP : Nat → ToolResultValue) (hmax : 1 ≤ m.max_attempts)
    (hbad : ∀ n, evaluate_results m (parseArchives (oracleP n)) = false) :
    handleTurn m Intent.HERITAGE_SEARCH utterance queries
        (fun n => Except.ok (oracleP n)) =
      (CallerOutcome.response
        ⟨"message", [], 0, utterance, some exhaustedMessage⟩, m.max_attempts) := by
  obtain ⟨s', hrun⟩ := runLoop_exhausts m queries oracleP hbad m.max_attempts
    initState (by simpa [initState] using hmax) (by simp [initState])
  simp only [handleTurn]
  rw [hrun]
  have hb := hbad (m.max_attempts - 1)
  simp [hb, initState]

/-- Witness for C3: three attempts each returning one item at similarity 0.3
(non-trivial but below the 0.4 bar) end in the exhaustion message. -/
theorem exhausted_emits_message_witness :
    handleTurn defaultMiddleware Intent.HERITAGE_SEARCH "batik"
        (fun _ => "batik textiles")
        (fun _ => Except.ok (ToolResultValue.tuple "1 result"
          [⟨"a1", "Batik sarong", [], [], mkRat 3 10⟩])) =
      (CallerOutcome.response
        ⟨"message", [], 0, "batik", some exhaustedMessage⟩, 3) :=
  exhausted_emits_message defaultMiddleware "batik" (fun _ => "batik textiles")
    (fun _ => ToolResultValue.tuple "1 result"
      [⟨"a1", "Batik sarong", [], [], mkRat 3 10⟩])
    (by decide)
    (fun _ => by
      exact (by decide : evaluate_results defaultMiddleware
        (parseArchives (ToolResultValue.tuple "1 result"
          [⟨"a1", "Batik sarong", [], [], mkRat 3 10⟩])) = false))

/-- C4: every `SearchResponse` the pipeline hands to the caller satisfies the
exclusivity invariant: `response_type = "results"` iff `archives` is
non-empty iff `message` is null. -/
theorem response_exclusivity (m : SearchRefinementMiddleware) (intent : Intent)
    (utterance : String) (queries : Nat → String)
    (oracle : Nat → Except String ToolResultValue)
    (r : SearchResponse) (n : Nat)
    (h : handleTurn m intent utterance queries oracle =
      (CallerOutcome.response r, n)) :
    (r.response_type = "results" ↔ r.archives ≠ []) ∧
    (r.response_type = "results" ↔ r.message = none) := by
  have hmsg : ∀ msg : String,
      r = ⟨"message", [], 0, utterance, some msg⟩ →
      (r.response_type = "results" ↔ r.archives ≠ []) ∧
      (r.response_type = "results" ↔ r.message = none) := by
    rintro msg rfl
    refine ⟨?_, ?_⟩ <;> simp
  cases intent with
  | UNCLEAR =>
      simp only [handleTurn, Prod.mk.injEq, CallerOutcome.response.injEq] at h
      exact hmsg _ h.1.symm
  | UNRELATED =>
      simp only [handleTurn, Prod.mk.injEq, CallerOutcome.response.injEq] at h
      exact hmsg _ h.1.symm
  | GREETING =>
      simp only [handleTurn, Prod.mk.injEq, CallerOutcome.response.injEq] at h
      exact hmsg _ h.1.symm
  | HERITAGE_SEARCH =>
      simp only [handleTurn] at h
      rcases hrl : runLoop m queries oracle m.max_attempts initState
        with ⟨res, s', k⟩
      rw [hrl] at h
      cases res with
      | failed e => simp at h
      | outOfFuel =>
          simp only [Prod.mk.injEq, CallerOutcome.response.injEq] at h
          exact hmsg _ h.1.symm
      | finished result =>
          by_cases hgood : evaluate_results m (parseArchives result) = true
          · simp only [hgood, if_pos, Prod.mk.injEq,
              CallerOutcome.response.injEq] at h
            obtain ⟨hr, -⟩ := h
            subst hr
            have hne : parseArchives result ≠ [] := by
              intro hnil
              rw [hnil] at hgood
              simp [evaluate_results] at hgood
            refine ⟨?_, ?_⟩ <;> simp [hne]
          · simp only [if_neg hgood, Prod.mk.injEq,
              CallerOutcome.response.injEq] at h
            exact hmsg _ h.1.symm

/-- Witness for C4: the invariant instantiated at a concrete greeting turn. -/
theorem response_exclusivity_witness :
    ((SearchResponse.mk "message" [] 0 "hello" (some greetingMessage)).response_type
        = "results" ↔
      (SearchResponse.mk "message" [] 0 "hello" (some greetingMessage)).archives ≠ []) ∧
    ((SearchResponse.mk "message" [] 0 "hello" (some greetingMessage)).response_type
        = "results" ↔
      (SearchResponse.mk "message" [] 0 "hello" (some greetingMessage)).message = none) :=
  response_exclusivity defaultMiddleware Intent.GREETING "hello" (fun _ => "")
    (fun _ => Except.ok ToolResultValue.other) _ 0 rfl

/-- C5: every non-search intent produces zero search invocations and a
message-type response whose text is, character for character, the canned
string for that intent. -/
theorem non_search_intents_canned (m : SearchRefinementMiddleware)
    (utterance : String) (queries : Nat → String)
    (oracle : Nat → Except String ToolResultValue) :
    handleTurn m Intent.UNCLEAR utterance queries oracle =
      (CallerOutcome.response
        ⟨"message", [], 0, utterance, some unclearMessage⟩, 0) ∧
    handleTurn m Intent.UNRELATED utterance queries oracle =
      (CallerOutcome.response
        ⟨"message", [], 0, utterance, some unrelatedMessage⟩, 0) ∧
    handleTurn m Intent.GREETING utterance queries oracle =
      (CallerOutcome.response
        ⟨"message", [], 0, utterance, some greetingMessage⟩, 0) :=
  ⟨rfl, rfl, rfl⟩

/-- C6 counterexample: the middleware records queries verbatim and nothing in
the code enforces novelty, so a session whose agent reissues the same query
has duplicate — even consecutively duplicate — `previous_queries_tried`
entries, contradicting the pairwise-distinctness claim. -/
theorem query_novelty_cex :
    2 ≤ (runLoop defaultMiddleware (fun _ => "batik")
      (fun _ => Except.ok (ToolResultValue.tuple "" [])) 3
      initState).2.1.search_attempt_count ∧
    (runLoop defaultMiddleware (fun _ => "batik")
      (fun _ => Except.ok (ToolResultValue.tuple "" [])) 3
      initState).2.1.previous_queries_tried = ["batik", "batik", "batik"] ∧
    ¬ (runLoop defaultMiddleware (fun _ => "batik")
      (fun _ => Except.ok (ToolResultValue.tuple "" [])) 3
      initState).2.1.previous_queries_tried.Nodup := by
  decide

/-- C6 amended: `previous_queries_tried` is exactly the queries the agent
issued, so its entries are pairwise distinct whenever the agent's queries for
the (at most `max_attempts`) attempts are pairwise distinct; the middleware
itself appends unconditionally and does not enforce novelty. -/
theorem query_novelty_amended (m : SearchRefinementMiddleware)
    (queries : Nat → String) (oracle : Nat → Except String ToolResultValue)
    (fuel : Nat) (hmax : 1 ≤ m.max_attempts)
    (hq : (((List.range m.max_attempts).map queries)).Nodup) :
    (runLoop m queries oracle fuel initState).2.1.previous_queries_tried.Nodup := by
  have htrace := runLoop_trace m queries oracle fuel initState
    (by simp [initState])
  have hcount := (runLoop_count_le m queries oracle fuel initState
    (by simpa [initState] using hmax)).1
  rw [htrace]
  exact hq.sublist ((List.range_sublist.mpr hcount).map queries)

/-- Witness for C6's amended theorem: three pairwise-distinct planned queries
yield a duplicate-free history. -/
theorem query_novelty_amended_witness :
    (runLoop defaultMiddleware
      (fun n => if n = 0 then "batik" else if n = 1 then "Malaysian batik" else "batik textiles")
      (fun _ => Except.ok (ToolResultValue.tuple "" [])) 3
      initState).2.1.previous_queries_tried.Nodup :=
  query_novelty_amended defaultMiddleware
    (fun n => if n = 0 then "batik" else if n = 1 then "Malaysian batik" else "batik textiles")
    (fun _ => Except.ok (ToolResultValue.tuple "" [])) 3 (by decide) (by decide)

/-- C7: a transport failure (the search handler raising) on any attempt
`k + 1` of a session — every earlier attempt having evaluated
`NEEDS_REFINEMENT` — propagates on the distinct `transportFailure` channel
after exactly `k + 1` handler invocations: no refinement retry is made for the
failure, and by construction the outcome is not a message-type
`SearchResponse`, hence not the exhaustion message. -/
theorem transport_failure_distinct (m : SearchRefinementMiddleware)
    (utterance : String) (queries : Nat → String)
    (oracle : Nat → Except String ToolResultValue) (e : String) (k : Nat)
    (hk : k < m.max_attempts)
    (hok : ∀ i, i < k → ∃ r, oracle i = Except.ok r ∧
      evaluate_results m (parseArchives r) = false)
    (hfail : oracle k = Except.error e) :
    handleTurn m Intent.HERITAGE_SEARCH utterance queries oracle =
      (CallerOutcome.transportFailure e, k + 1) := by
  obtain ⟨s', hrun⟩ := runLoop_fails m queries oracle e k hfail hok hk
    m.max_attempts initState
    (by have h0 : initState.search_attempt_count = 0 := rfl; omega)
    (by have h0 : initState.search_attempt_count = 0 := rfl; omega)
  simp only [handleTurn]
  rw [hrun]
  simp [initState]

/-- Witness for C7: attempts 1 and 2 return a below-threshold item, the
handler times out on attempt 3; the caller gets the transport failure after
exactly three invocations. -/
theorem transport_failure_distinct_witness :
    handleTurn defaultMiddleware Intent.HERITAGE_SEARCH "batik"
        (fun _ => "batik")
        (fun n => if n = 2 then Except.error "timeout"
          else Except.ok (ToolResultValue.tuple "1 result"
            [⟨"a1", "Batik sarong", [], [], mkRat 3 10⟩])) =
      (CallerOutcome.transportFailure "timeout", 3) :=
  transport_failure_distinct defaultMiddleware "batik" (fun _ => "batik")
    (fun n => if n = 2 then Except.error "timeout"
      else Except.ok (ToolResultValue.tuple "1 result"
        [⟨"a1", "Batik sarong", [], [], mkRat 3 10⟩]))
    "timeout" 2 (by decide)
    (by
      intro i hi
      interval_cases i
      · exact ⟨ToolResultValue.tuple "1 result"
          [⟨"a1", "Batik sarong", [], [], mkRat 3 10⟩], rfl, by decide⟩
      · exact ⟨ToolResultValue.tuple "1 result"
          [⟨"a1", "Batik sarong", [], [], mkRat 3 10⟩], rfl, by decide⟩)
    rfl

/-- C8 (code bug): `best_results` is declared in `SearchRefinementState` and
the plan says the middleware "returns best results from all attempts", but
`wrap_tool_call` never writes the field. Concretely: a session whose first
attempt already returns a non-empty candidate set (top similarity 0.3) ends
with `best_results` still empty — it never holds the best-scoring set seen. -/
theorem best_results_never_updated :
    (runLoop defaultMiddleware (fun _ => "batik")
      (fun _ => Except.ok (ToolResultValue.tuple "1 result"
        [⟨"a1", "Batik sarong", [], [], mkRat 3 10⟩])) 3
      initState).2.1.best_results = [] ∧
    parseArchives (ToolResultValue.tuple "1 result"
      [⟨"a1", "Batik sarong", [], [], mkRat 3 10⟩]) ≠ [] ∧
    (runLoop defaultMiddleware (fun _ => "batik")
      (fun _ => Except.ok (ToolResultValue.tuple "1 result"
        [⟨"a1", "Batik sarong", [], [], mkRat 3 10⟩])) 3
      initState).2.1.search_attempt_count = 3 := by
  refine ⟨by decide, by decide, by decide⟩

/-- C9: a tool request whose name is not `"search_archives_db"` is passed
straight through — the handler's own result is returned unchanged (wrapped in
the passthrough constructor) and every refinement-state field is left as it
was. -/
theorem non_search_tool_passthrough (m : SearchRefinementMiddleware)
    (toolName query : String) (hres : Except String ToolResultValue)
    (s : SearchRefinementState) (h : toolName ≠ "search_archives_db") :
    wrap_tool_call m toolName query hres s =
      (hres.map WrapOutput.passthrough, s) := by
  simp [wrap_tool_call, h]

/-- Witness for C9: an unrelated tool call against a mid-session state. -/
theorem non_search_tool_passthrough_witness :
    wrap_tool_call defaultMiddleware "get_archive_details" "q"
        (Except.ok ToolResultValue.other)
        ⟨2, some "batik", ["batik", "Malaysian batik"], []⟩ =
      (Except.ok (WrapOutput.passthrough ToolResultValue.other),
        ⟨2, some "batik", ["batik", "Malaysian batik"], []⟩) :=
  non_search_tool_passthrough defaultMiddleware "get_archive_details" "q"
    (Except.ok ToolResultValue.other)
    ⟨2, some "batik", ["batik", "Malaysian batik"], []⟩ (by decide)

/-- C10: when the input trims to the empty string and no files are selected,
`handleSend` returns immediately: the whole component state (messages, input,
selected files, typing indicator) is unchanged and the search API is not
called. -/
theorem handleSend_empty_noop (apiResult : Except String SearchResponse)
    (now : Nat) (s : ChatState) (h1 : jsTrim s.input = "")
    (h2 : s.selectedFiles = []) :
    handleSend apiResult now s = (s, false) := by
  simp [handleSend, h1, h2]

/-- Witness for C10: whitespace-only input, no files, a non-trivial message
list already present. -/
theorem handleSend_empty_noop_witness :
    handleSend (Except.ok ⟨"message", [], 0, "q", some "hi"⟩) 5
        ⟨"   ", [], [⟨"1", "user", "hi", 0, [], none⟩], false⟩ =
      (⟨"   ", [], [⟨"1", "user", "hi", 0, [], none⟩], false⟩, false) :=
  handleSend_empty_noop (Except.ok ⟨"message", [], 0, "q", some "hi"⟩) 5
    ⟨"   ", [], [⟨"1", "user", "hi", 0, [], none⟩], false⟩ (by decide) rfl

end AIChatbot
